import Mathlib

/-!
Verification development for the "AI legal agent team" repository.

The repository holds two Streamlit scripts:
  * `legal_agent_team.py` (the main variant): credential sidebar, Qdrant
    connection, PDF ingestion into a knowledge base, and a three-agent team;
  * `local_ai_legal_agent_team/local_legal_agent.py` (the local variant):
    the same pipeline against a local Qdrant and Ollama models.

We embed the state and the operations of both scripts shallowly: Python
optional strings become `Option String` with Python truthiness, the session
state becomes a record, the filesystem becomes the list of paths that exist,
and external effects that can fail (`Knowledge.add_content`, `os.unlink`,
client construction) are driven by explicit oracle fields.  UI display calls
(`st.info`, `st.error`, spinners) and `os.environ` writes have no bearing on
the verified properties and are elided.
-/

namespace LegalTeam

/-- A Python value that is either a string or `None`. -/
abbrev PyStr := Option String

/-- Python truthiness of an optional string: `None` and `""` are falsy. -/
def truthy : PyStr → Bool
  | none => false
  | some s => s != ""

/-- Python `a or b` on optional strings: `a` when truthy, else `b`. -/
def pyOr (a b : PyStr) : PyStr :=
  if truthy a then a else b

/-- The contents of `st.secrets` relevant to the scripts. -/
structure Secrets where
  openai_api_key : PyStr
  qdrant_api_key : PyStr
  qdrant_url : PyStr
deriving DecidableEq

/-- Embedder configuration (`OpenAIEmbedder(id, api_key)` in the main
variant, `OllamaEmbedder(model)` in the local variant). -/
inductive Embedder where
  | openai (id : String) (api_key : PyStr)
  | ollama (model : String)
deriving DecidableEq

/-- A constructed `Qdrant` vector-store client. -/
structure VectorDB where
  collection : String
  url : PyStr
  api_key : PyStr
  embedder : Embedder
deriving DecidableEq

/-- A `Knowledge` instance (`Knowledge(vector_db=...)`). -/
structure KB where
  vector_db : VectorDB
deriving DecidableEq

/-- A language-model binding (`OpenAIChat(id=...)` or `Ollama(id=...)`). -/
inductive LMModel where
  | openAIChat (id : String)
  | ollama (id : String)
deriving DecidableEq

/-- A tool handed to an agent (`DuckDuckGoTools()`). -/
inductive Tool where
  | duckduckgo
deriving DecidableEq

/-- An `Agent` as constructed by the scripts. -/
structure Agent where
  name : String
  role : Option String
  model : LMModel
  tools : List Tool
  knowledge : KB
  search_knowledge : Bool
  instructions : List String
  debug_mode : Bool
  markdown : Bool
deriving DecidableEq

/-- A `Team` as constructed by the scripts. -/
structure Team where
  name : String
  model : LMModel
  members : List Agent
  knowledge : KB
  search_knowledge : Bool
  instructions : List String
  debug_mode : Bool
  markdown : Bool
deriving DecidableEq

/-- `st.session_state` after `init_session_state` has run: the three
credential slots, the cached handles and the per-session set of processed
file names (a Python `set` of strings, modelled as a duplicate-free list). -/
structure SessionState where
  openai_api_key : PyStr
  qdrant_api_key : PyStr
  qdrant_url : PyStr
  vector_db : Option VectorDB
  legal_team : Option Team
  knowledge_base : Option KB
  processed_files : List String
deriving DecidableEq

/-- `init_session_state`: every slot starts as `None`, the processed-file
set starts empty. -/
def initSession : SessionState :=
  { openai_api_key := none
    qdrant_api_key := none
    qdrant_url := none
    vector_db := none
    legal_team := none
    knowledge_base := none
    processed_files := [] }

/-- `get_openai_key`: `st.secrets.get("OPENAI_API_KEY") or
st.session_state.openai_api_key`. -/
def get_openai_key (secrets : Secrets) (ss : SessionState) : PyStr :=
  pyOr secrets.openai_api_key ss.openai_api_key

/-- `get_qdrant_key`: `st.secrets.get("QDRANT_API_KEY") or
st.session_state.qdrant_api_key`. -/
def get_qdrant_key (secrets : Secrets) (ss : SessionState) : PyStr :=
  pyOr secrets.qdrant_api_key ss.qdrant_api_key

/-- `get_qdrant_url`: `st.secrets.get("QDRANT_URL") or
st.session_state.qdrant_url`. -/
def get_qdrant_url (secrets : Secrets) (ss : SessionState) : PyStr :=
  pyOr secrets.qdrant_url ss.qdrant_url

/-- `COLLECTION_NAME = "legal_documents"`. -/
def COLLECTION_NAME : String := "legal_documents"

/-- Outcome of `init_qdrant`: the returned value, plus whether the `Qdrant`
constructor was reached at all (the claim under test distinguishes the
guard returning early from construction being attempted). -/
structure InitOutcome where
  result : Option VectorDB
  attemptedConstruction : Bool
deriving DecidableEq

/-- `init_qdrant`: returns `None` when `not all([get_qdrant_key(),
get_qdrant_url()])`; otherwise constructs `Qdrant(collection, url, api_key,
embedder=OpenAIEmbedder("text-embedding-3-small", get_openai_key()))`.
Whether that construction raises (caught by the `except` branch, which
shows an error and returns `None`) is driven by the oracle
`constructFails`. -/
def init_qdrant (secrets : Secrets) (ss : SessionState)
    (constructFails : Bool) : InitOutcome :=
  if !(truthy (get_qdrant_key secrets ss) && truthy (get_qdrant_url secrets ss)) then
    { result := none, attemptedConstruction := false }
  else if constructFails then
    { result := none, attemptedConstruction := true }
  else
    { result := some
        { collection := COLLECTION_NAME
          url := get_qdrant_url secrets ss
          api_key := get_qdrant_key secrets ss
          embedder := .openai "text-embedding-3-small" (get_openai_key secrets ss) }
      attemptedConstruction := true }

/-- The disk: the set of paths that currently exist, as a list. -/
structure FileSystem where
  files : List String
deriving DecidableEq

/-- An uploaded file: its `.name` and the bytes `getvalue()` returns. -/
structure UploadedFile where
  name : String
  content : String
deriving DecidableEq

/-- Oracle for the external effects of one ingestion attempt: the fresh
path `NamedTemporaryFile` hands out, whether `Knowledge.add_content`
raises, whether `os.unlink` raises, and the message of the raised
exception. -/
structure IngestEnv where
  tmpPath : String
  addContentFails : Bool
  unlinkFails : Bool
  failMsg : String
deriving DecidableEq

/-- Result of `process_document`: a returned knowledge base, the
`ValueError` raised by the key guard, or the re-raised `Exception` from the
outer handler. -/
inductive ProcResult where
  | ok (kb : KB)
  | valueError (msg : String)
  | procError (msg : String)
deriving DecidableEq

/-- Full outcome of one `process_document` call: its result, the
filesystem after the call, and how many times `Knowledge.add_content` was
invoked (0 or 1). -/
structure ProcOutcome where
  result : ProcResult
  fs : FileSystem
  addContentCalls : Nat
deriving DecidableEq

/-- `process_document(uploaded_file, vector_db)` of the main variant.
Raises `ValueError("OpenAI API key not provided")` when `get_openai_key()`
is falsy.  Otherwise writes the scratch file, calls
`knowledge_base.add_content(path=...)`; if that raises, the outer `except`
re-raises `Exception("Error processing document: ...")` without unlinking
the scratch file; on success `os.unlink` runs inside a `try`/`except pass`,
so an unlink failure is swallowed and leaves the file behind. -/
def process_document (secrets : Secrets) (ss : SessionState)
    (uploaded_file : UploadedFile) (vector_db : VectorDB)
    (env : IngestEnv) (fs : FileSystem) : ProcOutcome :=
  if truthy (get_openai_key secrets ss) = false then
    { result := .valueError "OpenAI API key not provided", fs := fs, addContentCalls := 0 }
  else
    let fs1 : FileSystem := { files := env.tmpPath :: fs.files }
    if env.addContentFails then
      { result := .procError ("Error processing document: " ++ env.failMsg)
        fs := fs1
        addContentCalls := 1 }
    else
      let kb : KB := { vector_db := vector_db }
      let fs2 : FileSystem :=
        if env.unlinkFails then fs1 else { files := fs1.files.erase env.tmpPath }
      { result := .ok kb, fs := fs2, addContentCalls := 1 }

/-- Result of the local variant's `ingest_pdf`: the returned knowledge base
or a propagated exception. -/
inductive LocalIngestResult where
  | ok (kb : KB)
  | raised (msg : String)
deriving DecidableEq

/-- `ingest_pdf(uploaded_file, vector_db)` of the local variant: writes the
scratch file, calls `kb.add_content(path=path)` and then `os.unlink(path)`
with no exception handling at all, so a failure of either propagates and
skips the rest. -/
def ingest_pdf (uploaded_file : UploadedFile) (vector_db : VectorDB)
    (env : IngestEnv) (fs : FileSystem) : LocalIngestResult × FileSystem :=
  let fs1 : FileSystem := { files := env.tmpPath :: fs.files }
  if env.addContentFails then
    (.raised env.failMsg, fs1)
  else if env.unlinkFails then
    (.raised env.failMsg, fs1)
  else
    (.ok { vector_db := vector_db }, { files := fs1.files.erase env.tmpPath })

/-- The three sidebar `st.text_input` values of one script run (a Streamlit
text input yields `""` when empty). -/
structure CredInputs where
  openai : String
  qdrantKey : String
  qdrantUrl : String
deriving DecidableEq

/-- The sidebar credential block (main variant, lines 106-127): each text
input overwrites its session slot only when the entered string is truthy
(non-empty). -/
def sidebarCredsStep (ss : SessionState) (inp : CredInputs) : SessionState :=
  let ss1 := if inp.openai != "" then { ss with openai_api_key := some inp.openai } else ss
  let ss2 := if inp.qdrantKey != "" then { ss1 with qdrant_api_key := some inp.qdrantKey } else ss1
  if inp.qdrantUrl != "" then { ss2 with qdrant_url := some inp.qdrantUrl } else ss2

/-- The sidebar connection block (main variant, lines 129-133): when both
Qdrant credentials are truthy and `st.session_state.vector_db` is falsy,
call `init_qdrant` and store its result; otherwise leave the state alone.
The second component records whether `init_qdrant` was invoked. -/
def connectStep (secrets : Secrets) (ss : SessionState)
    (constructFails : Bool) : SessionState × Bool :=
  if truthy (get_qdrant_key secrets ss) && truthy (get_qdrant_url secrets ss) then
    match ss.vector_db with
    | some _ => (ss, false)
    | none => ({ ss with vector_db := (init_qdrant secrets ss constructFails).result }, true)
  else (ss, false)

/-- The `Legal Researcher` agent (main variant, lines 148-163). -/
def legal_researcher (kb : KB) : Agent :=
  { name := "Legal Researcher"
    role := some "Legal research specialist"
    model := .openAIChat "gpt-5"
    tools := [.duckduckgo]
    knowledge := kb
    search_knowledge := true
    instructions :=
      [ "Find and cite relevant legal cases and precedents"
      , "Provide detailed research summaries with sources"
      , "Reference specific sections from the uploaded document"
      , "Always search the knowledge base for relevant information" ]
    debug_mode := true
    markdown := true }

/-- The `Contract Analyst` agent (main variant, lines 165-177). -/
def contract_analyst (kb : KB) : Agent :=
  { name := "Contract Analyst"
    role := some "Contract analysis specialist"
    model := .openAIChat "gpt-5"
    tools := []
    knowledge := kb
    search_knowledge := true
    instructions :=
      [ "Review contracts thoroughly"
      , "Identify key terms and potential issues"
      , "Reference specific clauses from the document" ]
    debug_mode := false
    markdown := true }

/-- The `Legal Strategist` agent (main variant, lines 179-191). -/
def legal_strategist (kb : KB) : Agent :=
  { name := "Legal Strategist"
    role := some "Legal strategy specialist"
    model := .openAIChat "gpt-5"
    tools := []
    knowledge := kb
    search_knowledge := true
    instructions :=
      [ "Develop comprehensive legal strategies"
      , "Provide actionable recommendations"
      , "Consider both risks and opportunities" ]
    debug_mode := false
    markdown := true }

/-- The `Team` built by the main variant (lines 193-208): all three agents
and the team itself take the knowledge base returned by
`process_document`. -/
def buildLegalTeam (kb : KB) : Team :=
  { name := "Legal Team Lead"
    model := .openAIChat "gpt-5"
    members := [legal_researcher kb, contract_analyst kb, legal_strategist kb]
    knowledge := kb
    search_knowledge := true
    instructions :=
      [ "Coordinate analysis between team members"
      , "Provide comprehensive responses"
      , "Ensure all recommendations are properly sourced"
      , "Reference specific parts of the uploaded document"
      , "Always search the knowledge base before delegating tasks" ]
    debug_mode := true
    markdown := true }

/-- The `Team` built by the local variant (lines 53-66): one Ollama model
shared by the team and its three bare agents, all on the same `kb`. -/
def buildLocalTeam (kb : KB) : Team :=
  { name := "Legal Team"
    model := .ollama "llama3.1:8b"
    members :=
      [ { name := "Legal Researcher", role := none, model := .ollama "llama3.1:8b"
          tools := [], knowledge := kb, search_knowledge := true
          instructions := [], debug_mode := false, markdown := false }
      , { name := "Contract Analyst", role := none, model := .ollama "llama3.1:8b"
          tools := [], knowledge := kb, search_knowledge := true
          instructions := [], debug_mode := false, markdown := false }
      , { name := "Legal Strategist", role := none, model := .ollama "llama3.1:8b"
          tools := [], knowledge := kb, search_knowledge := true
          instructions := [], debug_mode := false, markdown := false } ]
    knowledge := kb
    search_knowledge := true
    instructions := []
    debug_mode := false
    markdown := true }

/-- The document-upload block of the main variant (lines 137-210).  It only
renders when `all([get_openai_key(), st.session_state.vector_db])`; a file
whose name is already in `processed_files` is skipped; otherwise
`process_document` runs, and only on its successful return are the
knowledge base stored, the name added to `processed_files` and the team
built.  The third component records whether a document was successfully
indexed in this step. -/
def uploadStep (secrets : Secrets) (ss : SessionState) (f : UploadedFile)
    (env : IngestEnv) (fs : FileSystem) : SessionState × FileSystem × Bool :=
  match ss.vector_db with
  | none => (ss, fs, false)
  | some vdb =>
    if truthy (get_openai_key secrets ss) = false then (ss, fs, false)
    else if f.name ∈ ss.processed_files then (ss, fs, false)
    else
      let out := process_document secrets ss f vdb env fs
      match out.result with
      | .ok kb =>
          ({ ss with
              knowledge_base := some kb
              processed_files := f.name :: ss.processed_files
              legal_team := some (buildLegalTeam kb) },
            out.fs, true)
      | _ => (ss, out.fs, false)

/-- One rerun of the main variant's script within a session: the sidebar
inputs, the connection oracle, the optional pending upload and its
ingestion oracle. -/
structure RunEvent where
  creds : CredInputs
  constructFails : Bool
  file : Option UploadedFile
  env : IngestEnv
deriving DecidableEq

/-- Whole-app state threaded through a session of the main variant: the
Streamlit session state, the disk, and the log of file names whose
ingestion completed successfully. -/
structure AppState where
  ss : SessionState
  fs : FileSystem
  ingestLog : List String
deriving DecidableEq

/-- One rerun of the main variant's `main()`: credentials sidebar, then the
connection block, then (when a file is pending) the upload block. -/
def mainRun (secrets : Secrets) (st : AppState) (ev : RunEvent) : AppState :=
  let ss1 := sidebarCredsStep st.ss ev.creds
  let ss2 := (connectStep secrets ss1 ev.constructFails).1
  match ev.file with
  | none => { st with ss := ss2 }
  | some f =>
      let r := uploadStep secrets ss2 f ev.env st.fs
      { ss := r.1
        fs := r.2.1
        ingestLog := if r.2.2 then st.ingestLog ++ [f.name] else st.ingestLog }

/-- A session of the main variant: `init_session_state` once, then a
sequence of script reruns (session state persists across reruns). -/
def appSession (secrets : Secrets) (fs0 : FileSystem)
    (evs : List RunEvent) : AppState :=
  evs.foldl (mainRun secrets) { ss := initSession, fs := fs0, ingestLog := [] }

/-- `get_vector_db()` of the local variant. -/
def localVectorDb : VectorDB :=
  { collection := "legal_knowledge"
    url := some "http://localhost:6333"
    api_key := none
    embedder := .ollama "openhermes" }

/-- One rerun of the local variant within a session: the retained upload
(if any) and that run's ingestion oracle. -/
structure LocalEvent where
  file : Option UploadedFile
  env : IngestEnv
deriving DecidableEq

/-- One rerun of the local variant's `main()` (lines 38-50): it keeps no
session state, so whenever an uploaded file is present `ingest_pdf` runs
again.  The first component logs the names handed to `ingest_pdf`. -/
def localRun (st : List String × FileSystem) (ev : LocalEvent) :
    List String × FileSystem :=
  match ev.file with
  | none => st
  | some f =>
      let out := ingest_pdf f localVectorDb ev.env st.2
      (st.1 ++ [f.name], out.2)

/-- A session of the local variant: a sequence of script reruns with the
uploader's retained file. -/
def localSession (evs : List LocalEvent) (fs0 : FileSystem) :
    List String × FileSystem :=
  evs.foldl localRun ([], fs0)

/-- The analysis types offered by the main variant's selectbox. -/
inductive AnalysisType where
  | contractReview
  | legalResearch
  | riskAssessment
  | complianceCheck
  | customQuery
deriving DecidableEq

/-- The `query` field of `analysis_configs` (the `Custom Query` entry holds
`None`; its text is never used). -/
def analysisQuery : AnalysisType → String
  | .contractReview => "Review this contract and identify key terms, obligations, and potential issues."
  | .legalResearch => "Research relevant cases and precedents related to this document."
  | .riskAssessment => "Analyze potential legal risks and liabilities in this document."
  | .complianceCheck => "Check this document for regulatory compliance issues."
  | .customQuery => ""

/-- The `agents` field of `analysis_configs`. -/
def analysisAgents : AnalysisType → List String
  | .contractReview => ["Contract Analyst"]
  | .legalResearch => ["Legal Researcher"]
  | .riskAssessment => ["Contract Analyst", "Legal Strategist"]
  | .complianceCheck => ["Legal Researcher", "Contract Analyst", "Legal Strategist"]
  | .customQuery => ["Legal Researcher", "Contract Analyst", "Legal Strategist"]

/-- The `combined_query` f-string built before dispatch (lines 284-301). -/
def combinedQuery (atype : AnalysisType) (user_query : String) : String :=
  if atype != .customQuery then
    "\nUsing the uploaded document as reference:\n\nPrimary Analysis Task: "
      ++ analysisQuery atype
      ++ "\nFocus Areas: "
      ++ String.intercalate ", " (analysisAgents atype)
      ++ "\n\nPlease search the knowledge base and provide specific references from the document.\n"
  else
    "\nUsing the uploaded document as reference:\n\n"
      ++ user_query
      ++ "\n\nPlease search the knowledge base and provide specific references from the document.\nFocus Areas: "
      ++ String.intercalate ", " (analysisAgents atype)
      ++ "\n"

/-- The `Analyze` button handler (lines 278-303): when the selected type is
`Custom Query` and the query text is empty a warning is shown and nothing
runs; in every other case `st.session_state.legal_team.run(combined_query)`
is dispatched.  `some (team, q)` means `team.run(q)` was invoked. -/
def analyzeStep (team : Team) (atype : AnalysisType) (user_query : String) :
    Option (Team × String) :=
  if atype = .customQuery ∧ user_query = "" then none
  else some (team, combinedQuery atype user_query)

/-- Sample embedder for concrete instantiations. -/
def sampleEmbedder : Embedder := .openai "text-embedding-3-small" (some "sk-test")

/-- Sample vector-store client for concrete instantiations. -/
def sampleVdb : VectorDB :=
  { collection := COLLECTION_NAME
    url := some "https://qdrant.example"
    api_key := some "qd-test"
    embedder := sampleEmbedder }

/-- Sample knowledge base for concrete instantiations. -/
def sampleKB : KB := { vector_db := sampleVdb }

/-- Sample uploaded file for concrete instantiations. -/
def sampleFile : UploadedFile := { name := "contract.pdf", content := "PDFBYTES" }

/-- Ingestion oracle where everything succeeds. -/
def okEnv : IngestEnv :=
  { tmpPath := "/tmp/tmpabc.pdf", addContentFails := false
    unlinkFails := false, failMsg := "" }

/-- Ingestion oracle where `add_content` raises. -/
def failEnv : IngestEnv :=
  { tmpPath := "/tmp/tmpabc.pdf", addContentFails := true
    unlinkFails := false, failMsg := "boom" }

/-- Secrets store with only the model-provider key set. -/
def secretsOpenaiOnly : Secrets :=
  { openai_api_key := some "sk-secret", qdrant_api_key := none, qdrant_url := none }

/-- Secrets store with nothing set. -/
def secretsEmpty : Secrets :=
  { openai_api_key := none, qdrant_api_key := none, qdrant_url := none }

/-- Invariant carried through a session of the main variant: each file name
has been successfully ingested at most once, and a name not yet in the
processed-files set has never been successfully ingested. -/
def IngestInv (st : AppState) (name : String) : Prop :=
  st.ingestLog.count name ≤ 1
  ∧ (name ∉ st.ss.processed_files → st.ingestLog.count name = 0)

/-- A team whose member roster is empty, fed to the analyze handler. -/
def zeroMemberTeam : Team :=
  { name := "Legal Team Lead"
    model := .openAIChat "gpt-5"
    members := []
    knowledge := sampleKB
    search_knowledge := true
    instructions := []
    debug_mode := true
    markdown := true }

/-! ### Theorems -/

/-- C3 counterexample: with `OPENAI_API_KEY` present in the secret store and
a different key typed interactively, `get_openai_key` returns the secret,
not the interactive value — interactive input does NOT take precedence. -/
theorem c3_counterexample :
    get_openai_key
        { openai_api_key := some "sk-secret", qdrant_api_key := none, qdrant_url := none }
        { initSession with openai_api_key := some "sk-typed" }
      = some "sk-secret"
    ∧ get_openai_key
        { openai_api_key := some "sk-secret", qdrant_api_key := none, qdrant_url := none }
        { initSession with openai_api_key := some "sk-typed" }
      ≠ some "sk-typed" := by
  constructor
  · rfl
  · decide

/-- C3 amended: for every credential name the resolver checks the secret
store first and returns its value whenever it is truthy; the interactively
supplied session value is returned only when the secret is absent or
empty. -/
theorem c3_secret_precedence (s : Secrets) (ss : SessionState)
    (h1 : truthy s.openai_api_key = true)
    (h2 : truthy s.qdrant_api_key = true)
    (h3 : truthy s.qdrant_url = true) :
    get_openai_key s ss = s.openai_api_key
    ∧ get_qdrant_key s ss = s.qdrant_api_key
    ∧ get_qdrant_url s ss = s.qdrant_url := by
  refine ⟨?_, ?_, ?_⟩ <;>
    simp [get_openai_key, get_qdrant_key, get_qdrant_url, pyOr, h1, h2, h3]

/-- C3 witness: the amended theorem applied at a concrete fully-populated
secret store. -/
theorem c3_secret_precedence_witness :
    get_openai_key
        { openai_api_key := some "a", qdrant_api_key := some "b", qdrant_url := some "c" }
        initSession
      = some "a" :=
  (c3_secret_precedence
    { openai_api_key := some "a", qdrant_api_key := some "b", qdrant_url := some "c" }
    initSession (by decide) (by decide) (by decide)).1

/-- C2 counterexample: with the model-provider key entirely missing but
both Qdrant credentials supplied interactively, `init_qdrant` still reaches
the `Qdrant` constructor and (when construction does not raise) returns a
client rather than `None`. -/
theorem c2_counterexample :
    truthy (get_openai_key secretsEmpty
      { initSession with qdrant_api_key := some "qk", qdrant_url := some "qu" }) = false
    ∧ (init_qdrant secretsEmpty
        { initSession with qdrant_api_key := some "qk", qdrant_url := some "qu" }
        false).attemptedConstruction = true
    ∧ (init_qdrant secretsEmpty
        { initSession with qdrant_api_key := some "qk", qdrant_url := some "qu" }
        true).attemptedConstruction = true
    ∧ (init_qdrant secretsEmpty
        { initSession with qdrant_api_key := some "qk", qdrant_url := some "qu" }
        false).result ≠ none := by
  refine ⟨by decide, by decide, by decide, by decide⟩

/-- C2 amended: the guard covers only the vector-store credentials — when
the Qdrant key or the Qdrant URL is missing (falsy), `init_qdrant` returns
`None` without reaching the constructor; a missing model-provider key alone
does not prevent construction. -/
theorem c2_guard_missing_store_creds (s : Secrets) (ss : SessionState)
    (constructFails : Bool)
    (h : truthy (get_qdrant_key s ss) = false ∨ truthy (get_qdrant_url s ss) = false) :
    init_qdrant s ss constructFails = { result := none, attemptedConstruction := false } := by
  rcases h with h | h <;> simp [init_qdrant, h]

/-- C2 witness: the amended guard applied with both credential sources
empty. -/
theorem c2_guard_missing_store_creds_witness :
    init_qdrant secretsEmpty initSession false
      = { result := none, attemptedConstruction := false } :=
  c2_guard_missing_store_creds secretsEmpty initSession false (Or.inl (by decide))

/-- C5 confirmed: when a vector-store handle is already in session state,
the connection block leaves the whole session state unchanged and does not
invoke `init_qdrant`, whatever the credentials are. -/
theorem c5_handle_reused (secrets : Secrets) (ss : SessionState)
    (constructFails : Bool) (vdb : VectorDB)
    (h : ss.vector_db = some vdb) :
    connectStep secrets ss constructFails = (ss, false) := by
  unfold connectStep
  rw [h]
  split <;> rfl

/-- C5 witness: the connection step applied to a session that already holds
a handle, with complete credentials. -/
theorem c5_handle_reused_witness :
    connectStep secretsEmpty
        { initSession with qdrant_api_key := some "qk", qdrant_url := some "qu",
                           vector_db := some sampleVdb }
        false
      = ({ initSession with qdrant_api_key := some "qk", qdrant_url := some "qu",
                            vector_db := some sampleVdb }, false) :=
  c5_handle_reused secretsEmpty _ false sampleVdb rfl

/-- C6 confirmed: in both variants, the team object and each of its three
member agents reference exactly the knowledge base produced by ingesting
the uploaded document. -/
theorem c6_shared_knowledge_base (kb : KB) :
    (buildLegalTeam kb).knowledge = kb
    ∧ (buildLegalTeam kb).members.map Agent.knowledge = [kb, kb, kb]
    ∧ (buildLocalTeam kb).knowledge = kb
    ∧ (buildLocalTeam kb).members.map Agent.knowledge = [kb, kb, kb] :=
  ⟨rfl, rfl, rfl, rfl⟩

/-- C9 confirmed: each credential slot of the session state is overwritten
by the sidebar only when the corresponding text input is non-empty; an
emptied (cleared) input leaves the previously stored value in place, and a
slot that holds a value can never return to `None` through the sidebar. -/
theorem c9_creds_never_unset (ss : SessionState) (inp : CredInputs) :
    (sidebarCredsStep ss inp).openai_api_key
      = (if inp.openai = "" then ss.openai_api_key else some inp.openai)
    ∧ (sidebarCredsStep ss inp).qdrant_api_key
      = (if inp.qdrantKey = "" then ss.qdrant_api_key else some inp.qdrantKey)
    ∧ (sidebarCredsStep ss inp).qdrant_url
      = (if inp.qdrantUrl = "" then ss.qdrant_url else some inp.qdrantUrl)
    ∧ ss.openai_api_key.isSome ≤ (sidebarCredsStep ss inp).openai_api_key.isSome
    ∧ ss.qdrant_api_key.isSome ≤ (sidebarCredsStep ss inp).qdrant_api_key.isSome
    ∧ ss.qdrant_url.isSome ≤ (sidebarCredsStep ss inp).qdrant_url.isSome := by
  unfold sidebarCredsStep
  rcases h1 : inp.openai == "" <;> rcases h2 : inp.qdrantKey == "" <;>
    rcases h3 : inp.qdrantUrl == "" <;>
    simp_all [bne, Bool.le_true, le_refl]

/-- C10 confirmed: `process_document` raises
`ValueError("OpenAI API key not provided")` exactly when no model-provider
key is resolvable, and in that case it returns before writing any scratch
file (the filesystem is unchanged) and before touching the vector store
(`add_content` is never invoked); when a key is resolvable the guard
passes, the scratch file is written and `add_content` runs. -/
theorem c10_key_guard (secrets : Secrets) (ss : SessionState)
    (f : UploadedFile) (vdb : VectorDB) (env : IngestEnv) (fs : FileSystem) :
    (truthy (get_openai_key secrets ss) = false →
        process_document secrets ss f vdb env fs
          = { result := .valueError "OpenAI API key not provided"
              fs := fs, addContentCalls := 0 })
    ∧ (truthy (get_openai_key secrets ss) = true →
        (process_document secrets ss f vdb env fs).addContentCalls = 1
        ∧ (process_document secrets ss f vdb env fs).result
            ≠ .valueError "OpenAI API key not provided"
        ∧ env.tmpPath ∈ ((FileSystem.mk (env.tmpPath :: fs.files)).files)) := by
  constructor
  · intro h
    simp [process_document, h]
  · intro h
    unfold process_document
    rw [h]
    rcases hac : env.addContentFails <;> rcases hu : env.unlinkFails <;>
      simp [hac, hu]

/-- C10 witness: both directions of the key guard at concrete inputs — the
empty credential state raises the `ValueError` and leaves the (empty) disk
untouched, while a populated secret store lets ingestion proceed. -/
theorem c10_key_guard_witness :
    process_document secretsEmpty initSession sampleFile sampleVdb okEnv { files := [] }
      = { result := .valueError "OpenAI API key not provided"
          fs := { files := [] }, addContentCalls := 0 }
    ∧ (process_document secretsOpenaiOnly initSession sampleFile sampleVdb okEnv
        { files := [] }).addContentCalls = 1 :=
  ⟨(c10_key_guard secretsEmpty initSession sampleFile sampleVdb okEnv { files := [] }).1
      (by decide),
    ((c10_key_guard secretsOpenaiOnly initSession sampleFile sampleVdb okEnv
        { files := [] }).2 (by decide)).1⟩

/-- C1 counterexample: with a resolvable key and an `add_content` call that
raises, `process_document` re-raises and at that moment the scratch file is
still on disk — the cleanup is skipped on the failure path. -/
theorem c1_counterexample :
    (process_document secretsOpenaiOnly initSession sampleFile sampleVdb failEnv
        { files := [] }).result = .procError "Error processing document: boom"
    ∧ "/tmp/tmpabc.pdf" ∈ (process_document secretsOpenaiOnly initSession sampleFile
        sampleVdb failEnv { files := [] }).fs.files := by
  refine ⟨by decide, by decide⟩

/-- C1 amended: when the indexing routine and the unlink both succeed, the
uniquely-named scratch file no longer exists on disk once the ingestion
operation returns, in both variants; on an indexing failure the cleanup is
skipped and the file remains (shown by the counterexample). -/
theorem c1_scratch_cleanup_on_success (secrets : Secrets) (ss : SessionState)
    (f : UploadedFile) (vdb : VectorDB) (env : IngestEnv) (fs : FileSystem)
    (h1 : env.addContentFails = false) (h2 : env.unlinkFails = false)
    (h3 : env.tmpPath ∉ fs.files) :
    env.tmpPath ∉ (process_document secrets ss f vdb env fs).fs.files
    ∧ env.tmpPath ∉ (ingest_pdf f vdb env fs).2.files := by
  constructor
  · unfold process_document
    rcases hk : truthy (get_openai_key secrets ss)
    · simpa [hk] using h3
    · simp [hk, h1, h2, List.erase_cons_head]
      exact h3
  · unfold ingest_pdf
    simp [h1, h2, List.erase_cons_head]
    exact h3

/-- C1 witness: the amended cleanup theorem at a concrete succeeding
ingestion on an empty disk. -/
theorem c1_scratch_cleanup_on_success_witness :
    "/tmp/tmpabc.pdf" ∉ (process_document secretsOpenaiOnly initSession sampleFile
        sampleVdb okEnv { files := [] }).fs.files :=
  (c1_scratch_cleanup_on_success secretsOpenaiOnly initSession sampleFile sampleVdb
    okEnv { files := [] } rfl rfl (by decide)).1

/-- C7 counterexample: the analyze handler performs no roster validation —
fed a team whose member list is empty (and a non-empty preset query), it
still dispatches `team.run`, contradicting "a run on a team with zero
active members is rejected before dispatching". -/
theorem c7_counterexample :
    zeroMemberTeam.members.length = 0
    ∧ (analyzeStep zeroMemberTeam .contractReview "").isSome = true := by
  refine ⟨rfl, by decide⟩

/-- C7 amended: the only validation before dispatch is the empty custom
query check — a `Custom Query` run with an empty query is rejected with no
model call; no roster-size check exists, but every team the application
itself constructs has exactly three members, so a zero-member dispatch is
unreachable through the UI. -/
theorem c7_empty_query_validation (team : Team) (kb : KB) :
    analyzeStep team .customQuery "" = none
    ∧ (buildLegalTeam kb).members.length = 3
    ∧ (buildLocalTeam kb).members.length = 3 := by
  refine ⟨by simp [analyzeStep], rfl, rfl⟩

/-- C8 confirmed: when an upload's processing raises, the session state —
in particular the processed-files set — is left unchanged, and a later
attempt at the same filename (with the indexing routine now succeeding)
does ingest the document. -/
theorem c8_failed_upload_retryable (secrets : Secrets) (ss : SessionState)
    (f : UploadedFile) (env env2 : IngestEnv) (fs fs2 : FileSystem)
    (vdb : VectorDB)
    (h : env.addContentFails = true)
    (hv : ss.vector_db = some vdb)
    (hk : truthy (get_openai_key secrets ss) = true)
    (hn : f.name ∉ ss.processed_files)
    (h2 : env2.addContentFails = false) :
    (uploadStep secrets ss f env fs).1 = ss
    ∧ (uploadStep secrets ss f env2 fs2).2.2 = true := by
  constructor
  · unfold uploadStep
    rw [hv]
    simp [hk, hn, process_document, h]
  · unfold uploadStep
    rw [hv]
    simp [hk, hn, process_document, h2]

/-- C8 witness: a failing then succeeding upload of the same file at a
concrete session state. -/
theorem c8_failed_upload_retryable_witness :
    (uploadStep secretsOpenaiOnly { initSession with vector_db := some sampleVdb }
        sampleFile failEnv { files := [] }).1
      = { initSession with vector_db := some sampleVdb }
    ∧ (uploadStep secretsOpenaiOnly { initSession with vector_db := some sampleVdb }
        sampleFile okEnv { files := [] }).2.2 = true :=
  c8_failed_upload_retryable secretsOpenaiOnly
    { initSession with vector_db := some sampleVdb } sampleFile failEnv okEnv
    { files := [] } { files := [] } sampleVdb rfl rfl (by decide) (by decide) rfl

/-- The sidebar credential block never touches the processed-files set. -/
theorem sidebarCredsStep_processed (ss : SessionState) (inp : CredInputs) :
    (sidebarCredsStep ss inp).processed_files = ss.processed_files := by
  unfold sidebarCredsStep
  rcases h1 : inp.openai != "" <;> rcases h2 : inp.qdrantKey != "" <;>
    rcases h3 : inp.qdrantUrl != "" <;> simp [h1, h2, h3]

/-- The connection block never touches the processed-files set. -/
theorem connectStep_processed (secrets : Secrets) (ss : SessionState)
    (constructFails : Bool) :
    (connectStep secrets ss constructFails).1.processed_files = ss.processed_files := by
  unfold connectStep
  split
  · rcases h : ss.vector_db with _ | vdb <;> simp [h]
  · rfl

/-- Case analysis on the upload block: either nothing was ingested and the
processed-files set is unchanged, or the file's name was absent from the
set, was ingested, and was prepended to the set. -/
theorem uploadStep_cases (secrets : Secrets) (ss : SessionState)
    (f : UploadedFile) (env : IngestEnv) (fs : FileSystem) :
    ((uploadStep secrets ss f env fs).2.2 = false
      ∧ (uploadStep secrets ss f env fs).1.processed_files = ss.processed_files)
    ∨ ((uploadStep secrets ss f env fs).2.2 = true
      ∧ f.name ∉ ss.processed_files
      ∧ (uploadStep secrets ss f env fs).1.processed_files
          = f.name :: ss.processed_files) := by
  unfold uploadStep
  rcases hv : ss.vector_db with _ | vdb
  · exact Or.inl ⟨rfl, rfl⟩
  · by_cases hk : truthy (get_openai_key secrets ss) = false
    · simp [hk]
    · by_cases hn : f.name ∈ ss.processed_files
      · simp [hk, hn]
      · rcases hr : (process_document secrets ss f vdb env fs).result with kb | m | m
        · exact Or.inr (by simp [hk, hn, hr])
        · exact Or.inl (by simp [hk, hn, hr])
        · exact Or.inl (by simp [hk, hn, hr])

/-- One script rerun of the main variant preserves the ingestion
invariant. -/
theorem mainRun_inv (secrets : Secrets) (st : AppState) (ev : RunEvent)
    (name : String) (h : IngestInv st name) :
    IngestInv (mainRun secrets st ev) name := by
  obtain ⟨hcount, hzero⟩ := h
  unfold mainRun
  have hp2 : ((connectStep secrets (sidebarCredsStep st.ss ev.creds)
      ev.constructFails).1).processed_files = st.ss.processed_files := by
    rw [connectStep_processed, sidebarCredsStep_processed]
  rcases hf : ev.file with _ | f
  · exact ⟨hcount, fun hm => hzero (by rwa [hp2] at hm)⟩
  · rcases uploadStep_cases secrets
        ((connectStep secrets (sidebarCredsStep st.ss ev.creds) ev.constructFails).1)
        f ev.env st.fs with
      ⟨hing, hpres⟩ | ⟨hing, hnotin, hcons⟩
    · refine ⟨by simp [hing, hcount], fun hm => ?_⟩
      simp only [hing, if_neg Bool.false_ne_true] at *
      exact hzero (by rw [← hp2, ← hpres]; simpa using hm)
    · constructor
      · simp only [hing, if_pos rfl]
        by_cases hname : name = f.name
        · subst hname
          have hn0 : f.name ∉ st.ss.processed_files := by rwa [hp2] at hnotin
          have h0 : st.ingestLog.count f.name = 0 := hzero hn0
          simp [List.count_append, h0]
        · simp [List.count_append, List.count_singleton', hname, hcount]
      · intro hm
        simp only [hing, if_pos rfl]
        simp only [hcons] at hm
        rw [List.mem_cons, not_or] at hm
        have h0 : st.ingestLog.count name = 0 :=
          hzero (by rw [← hp2]; exact hm.2)
        simp [List.count_append, List.count_singleton', hm.1, h0]

/-- The ingestion invariant holds along any fold of script reruns. -/
theorem foldl_mainRun_inv (secrets : Secrets) (name : String) :
    ∀ (evs : List RunEvent) (st : AppState), IngestInv st name →
      IngestInv (evs.foldl (mainRun secrets) st) name := by
  intro evs
  induction evs with
  | nil => intro st h; simpa using h
  | cons e es ih =>
      intro st h
      simpa using ih _ (mainRun_inv secrets st e name h)

/-- C4 counterexample: in the local variant a session of two script reruns
with the same uploaded file present (which Streamlit produces as soon as
the user interacts again after uploading) runs `ingest_pdf` twice for that
filename — ingestion is not at-most-once per session there, because the
local variant keeps no processed-files set. -/
theorem c4_counterexample :
    ¬ ((localSession
        [ { file := some sampleFile, env := okEnv }
        , { file := some sampleFile, env := okEnv } ]
        { files := [] }).1.count sampleFile.name ≤ 1) := by
  decide

/-- C4 amended: in the main variant the processed-files guard makes
successful ingestion at-most-once per filename per session — over any
sequence of script reruns, any credential inputs and any ingestion
outcomes; the local variant has no such guard and re-ingests the retained
upload on every rerun (shown by the counterexample). -/
theorem c4_ingest_at_most_once (secrets : Secrets) (fs0 : FileSystem)
    (evs : List RunEvent) (name : String) :
    (appSession secrets fs0 evs).ingestLog.count name ≤ 1 :=
  (foldl_mainRun_inv secrets name evs
    { ss := initSession, fs := fs0, ingestLog := [] }
    ⟨by simp, by simp⟩).1

end LegalTeam
